import Mathlib

/-!
Shallow embedding of `src/arch/simddetect.cpp` (tesseract): the SIMD
capability detector and the dot-product dispatch policy.

The C++ file has a global function pointer `DotProduct` (zero-initialized,
i.e. null before static construction), five static boolean capability flags
(zero-initialized to `false`), a config string variable `dotproduct`
(initial value `"auto"`), a constructor `SIMDDetect::SIMDDetect` that runs
CPUID-based detection and installs an initial kernel, and a method
`SIMDDetect::Update` that re-binds the kernel from the config string and
unconditionally writes the normalized method name back to the config
variable.
-/

namespace Tesseract

/-- The closed set of dot-product kernel implementations that
`simddetect.cpp` can bind to the global `DotProduct` pointer:
`DotProductGeneric`, `DotProductSSE`, `DotProductAVX`, `DotProductNative`. -/
inductive Kernel where
  | generic
  | sse
  | avx
  | native
  deriving DecidableEq, Repr

/-- The five static capability flags of class `SIMDDetect`
(`sse_available_`, `avx_available_`, `avx2_available_`,
`avx512F_available_`, `avx512BW_available_`). -/
structure Flags where
  sse_available_ : Bool
  avx_available_ : Bool
  avx2_available_ : Bool
  avx512F_available_ : Bool
  avx512BW_available_ : Bool
  deriving DecidableEq, Repr

/-- Static members of a C++ class are zero-initialized: all flags start
`false`. -/
def Flags.init : Flags :=
  { sse_available_ := false
    avx_available_ := false
    avx2_available_ := false
    avx512F_available_ := false
    avx512BW_available_ := false }

/-- One set of CPUID result registers (eax, ebx, ecx, edx), modelled as
natural numbers holding the 32-bit register values. -/
structure CpuidRegs where
  eax : Nat
  ebx : Nat
  ecx : Nat
  edx : Nat
  deriving DecidableEq, Repr

/-- The environment the constructor's detection code observes: the build
target (`x86` models whether `X86_BUILD` is defined, `gnuc` whether the
`__GNUC__` path or the `_WIN32` path is compiled), and the outcomes of the
CPUID queries the two paths can issue.  `leaf1 = none` models
`__get_cpuid(1, ...)` returning 0 (query unsupported). -/
structure CpuInfo where
  x86 : Bool
  gnuc : Bool
  leaf1 : Option CpuidRegs
  leaf7 : CpuidRegs
  maxLeaf : Nat
  leaf1win : CpuidRegs
  deriving DecidableEq, Repr

namespace SIMDDetect

/-- The flag-detection part of `SIMDDetect::SIMDDetect()`: on the
`__GNUC__` x86 path, leaf 1 sets `sse_available_` (ecx bit 0x00080000) and
`avx_available_` (ecx bit 0x10000000); leaf 7 sub-leaf 0 is queried only
when `avx_available_` and sets the AVX2/AVX512 flags from ebx bits
0x00000020, 0x00010000, 0x40000000.  On the `_WIN32` path only SSE and AVX
are detected, guarded by `cpuInfo[0] >= 1`.  Off `X86_BUILD` the flags keep
their zero-initialized values. -/
def detect (c : CpuInfo) : Flags :=
  if c.x86 then
    if c.gnuc then
      match c.leaf1 with
      | some r =>
        let f : Flags :=
          { sse_available_ := (r.ecx &&& 0x00080000) != 0
            avx_available_ := (r.ecx &&& 0x10000000) != 0
            avx2_available_ := false
            avx512F_available_ := false
            avx512BW_available_ := false }
        if f.avx_available_ then
          { f with
            avx2_available_ := (c.leaf7.ebx &&& 0x00000020) != 0
            avx512F_available_ := (c.leaf7.ebx &&& 0x00010000) != 0
            avx512BW_available_ := (c.leaf7.ebx &&& 0x40000000) != 0 }
        else f
      | none => Flags.init
    else
      if 1 ≤ c.maxLeaf then
        { Flags.init with
          sse_available_ := (c.leaf1win.ecx &&& 0x00080000) != 0
          avx_available_ := (c.leaf1win.ecx &&& 0x10000000) != 0 }
      else Flags.init
  else Flags.init

/-- The sequence of `SetDotProduct` calls performed by the constructor, in
order: first the generic fallback, then (on `X86_BUILD` only) the AVX
kernel if `avx_available_`, else the SSE kernel if `sse_available_`. -/
def ctorCalls (c : CpuInfo) : List Kernel :=
  let f := detect c
  [Kernel.generic] ++
    (if c.x86 then
       if f.avx_available_ then [Kernel.avx]
       else if f.sse_available_ then [Kernel.sse]
       else []
     else [])

end SIMDDetect

/-- The global function-pointer slot `DotProduct`: `none` models the
zero-initialized (null) pointer before static construction; `some k` a
bound kernel. -/
def slotAfter (calls : List Kernel) (slot : Option Kernel) : Option Kernel :=
  calls.foldl (fun _ k => some k) slot

/-- The `DotProduct` slot right after `SIMDDetect::detector` finishes its
static construction, starting from the null pointer. -/
def SIMDDetect.initSlot (c : CpuInfo) : Option Kernel :=
  slotAfter (SIMDDetect.ctorCalls c) none

/-- The mutable global state `SIMDDetect::Update` works on: the
`DotProduct` function-pointer slot and the stored value of the `dotproduct`
config string variable. -/
structure State where
  DotProduct : Option Kernel
  dotproduct : String
  deriving DecidableEq, Repr

/-- Result of one `SIMDDetect::Update()` call: the new global state, the
lines printed through `tprintf`, and the arguments of the
`dotproduct.set_value` calls it performed. -/
structure UpdateTrace where
  state : State
  warnings : List String
  setValueCalls : List String
  deriving DecidableEq, Repr

/-- The second `tprintf` line of the rejection branch: the accepted
vocabulary, with " avx sse" appended only on `X86_BUILD`. -/
def supportLine (x86 : Bool) : String :=
  "Support values for dotproduct: auto generic native" ++
    (if x86 then " avx sse" else "") ++ ".\n"

/-- `SIMDDetect::Update()`.  `dotproduct_method` starts as `"generic"`;
the config string is compared with `strcmp` against `"auto"`, `"generic"`,
`"native"`, and (only on `X86_BUILD`) `"avx"` and `"sse"`; matching
branches other than `"auto"` call `SetDotProduct` and set
`dotproduct_method`; the final else prints two warning lines and changes
nothing; the final statement `dotproduct.set_value(dotproduct_method)`
runs unconditionally. -/
def SIMDDetect.Update (x86 : Bool) (s : State) : UpdateTrace :=
  if s.dotproduct == "auto" then
    { state := { DotProduct := s.DotProduct, dotproduct := "generic" }
      warnings := []
      setValueCalls := ["generic"] }
  else if s.dotproduct == "generic" then
    { state := { DotProduct := some Kernel.generic, dotproduct := "generic" }
      warnings := []
      setValueCalls := ["generic"] }
  else if s.dotproduct == "native" then
    { state := { DotProduct := some Kernel.native, dotproduct := "native" }
      warnings := []
      setValueCalls := ["native"] }
  else if x86 && (s.dotproduct == "avx") then
    { state := { DotProduct := some Kernel.avx, dotproduct := "avx" }
      warnings := []
      setValueCalls := ["avx"] }
  else if x86 && (s.dotproduct == "sse") then
    { state := { DotProduct := some Kernel.sse, dotproduct := "sse" }
      warnings := []
      setValueCalls := ["sse"] }
  else
    { state := { DotProduct := s.DotProduct, dotproduct := "generic" }
      warnings :=
        ["Warning, ignoring unsupported config variable value: dotproduct=" ++
           s.dotproduct ++ "\n",
         supportLine x86]
      setValueCalls := ["generic"] }

/-- Setting the `dotproduct` config variable to `x` and then calling
`SIMDDetect::Update()` — "applying" the preference `x`. -/
def apply (x86 : Bool) (x : String) (s : State) : UpdateTrace :=
  SIMDDetect.Update x86 { s with dotproduct := x }

/-- The accepted preference vocabulary: `auto`, `generic`, `native`
everywhere, plus `avx`, `sse` on `X86_BUILD`. -/
def acceptedValues (x86 : Bool) : List String :=
  ["auto", "generic", "native"] ++ (if x86 then ["avx", "sse"] else [])

/-- The global state right after static initialization: slot bound by the
constructor, config variable at its declared default `"auto"`. -/
def initState (c : CpuInfo) : State :=
  { DotProduct := SIMDDetect.initSlot c, dotproduct := "auto" }

/-- Applying a whole list of preference strings in order, keeping only the
resulting state. -/
def runUpdates (x86 : Bool) (prefs : List String) (s : State) : State :=
  prefs.foldl (fun st x => (apply x86 x st).state) s

/-- `DotProductGeneric`: `total = 0.0; for (k = 0; k < n; ++k) total +=
u[k] * v[k]; return total;` — the loop as a left fold over `0, …, n-1`.
The numeric type is ℚ: for the integer-valued inputs considered here the
double computation is exact. -/
def DotProductGeneric (u v : Nat → ℚ) (n : Nat) : ℚ :=
  (List.range n).foldl (fun total k => total + u k * v k) 0

/-- The concrete vector u = [1, 2, 3] of the end-to-end scenario. -/
def uEx : Nat → ℚ := fun k =>
  if k = 0 then 1 else if k = 1 then 2 else if k = 2 then 3 else 0

/-- The concrete vector v = [4, 5, 6] of the end-to-end scenario. -/
def vEx : Nat → ℚ := fun k =>
  if k = 0 then 4 else if k = 1 then 5 else if k = 2 then 6 else 0

end Tesseract
namespace Tesseract

/-! Helper lemmas shared by the claim theorems. -/

/-- Unrolling the `DotProductGeneric` loop by one iteration. -/
theorem dotProductGeneric_succ (u v : Nat → ℚ) (n : Nat) :
    DotProductGeneric u v (n + 1) = DotProductGeneric u v n + u n * v n := by
  simp [DotProductGeneric, List.range_succ]

/-- The `DotProductGeneric` loop computes the reference summation
Σ_{k < n} u k * v k. -/
theorem dotProductGeneric_eq_sum (u v : Nat → ℚ) (n : Nat) :
    DotProductGeneric u v n = Finset.sum (Finset.range n) (fun k => u k * v k) := by
  induction n with
  | zero => simp [DotProductGeneric]
  | succ n ih => rw [dotProductGeneric_succ, ih, Finset.sum_range_succ]

/-- `Update` never nulls the `DotProduct` slot: each branch either keeps
the previous pointer or installs a concrete kernel. -/
theorem update_isSome (x86 : Bool) (s : State)
    (h : s.DotProduct.isSome = true) :
    ((SIMDDetect.Update x86 s).state.DotProduct).isSome = true := by
  unfold SIMDDetect.Update
  repeat' split
  all_goals simp_all

/-- A nonempty sequence of `SetDotProduct` calls, or a slot already bound,
leaves the slot bound. -/
theorem slotAfter_isSome (l : List Kernel) (o : Option Kernel)
    (h : l ≠ [] ∨ o.isSome = true) : (slotAfter l o).isSome = true := by
  induction l generalizing o with
  | nil => simpa [slotAfter] using h.resolve_left (by simp)
  | cons a t ih =>
    simp only [slotAfter, List.foldl_cons]
    exact ih (some a) (Or.inr rfl)

/-- The constructor always leaves `DotProduct` bound (it starts with
`SetDotProduct(DotProductGeneric)`). -/
theorem initSlot_isSome (c : CpuInfo) :
    (SIMDDetect.initSlot c).isSome = true := by
  apply slotAfter_isSome
  left
  simp [SIMDDetect.ctorCalls]

/-- A bound slot stays bound under any sequence of applied preferences. -/
theorem runUpdates_isSome (x86 : Bool) (prefs : List String) (s : State)
    (h : s.DotProduct.isSome = true) :
    (runUpdates x86 prefs s).DotProduct.isSome = true := by
  induction prefs generalizing s with
  | nil => simpa [runUpdates] using h
  | cons p t ih =>
    simp only [runUpdates, List.foldl_cons]
    exact ih _ (update_isSome x86 _ h)

/-! The claims. -/

/-- C1 (counterexample): the claim that `apply("auto")` performs no write
to the configuration store is false.  From the state with stored value
`"auto"` and the AVX kernel bound, `Update` performs a
`dotproduct.set_value("generic")` call and the stored value is overwritten
(it is no longer `"auto"`): the final
`dotproduct.set_value(dotproduct_method)` in `SIMDDetect::Update` is
unconditional, and in the `"auto"` branch `dotproduct_method` still holds
its initial value `"generic"`. -/
theorem claim_C1_counterexample :
    (apply false "auto"
        { DotProduct := some Kernel.avx, dotproduct := "auto" }).setValueCalls =
      ["generic"] ∧
    (apply false "auto"
        { DotProduct := some Kernel.avx, dotproduct := "auto" }).state.dotproduct ≠
      "auto" := by
  decide

/-- C1 (amended): for every prior state and build target, `apply("auto")`
leaves the bound kernel unchanged and emits no diagnostic, but it does
write to the configuration store: it performs exactly one
`set_value("generic")` call, so the stored preference becomes `"generic"`
(the symbolic `"auto"` is overwritten). -/
theorem claim_C1_amended (x86 : Bool) (s : State) :
    (apply x86 "auto" s).state.DotProduct = s.DotProduct ∧
    (apply x86 "auto" s).warnings = [] ∧
    (apply x86 "auto" s).setValueCalls = ["generic"] ∧
    (apply x86 "auto" s).state.dotproduct = "generic" := by
  simp [apply, SIMDDetect.Update]

/-- C2: for every preference string outside the accepted vocabulary (on
the current build target), `apply` leaves the bound kernel unchanged,
emits exactly the two diagnostic lines naming the offending value and the
accepted vocabulary, and writes back `"generic"` as the stored value. -/
theorem claim_C2 (x86 : Bool) (x : String) (s : State)
    (h : x ∉ acceptedValues x86) :
    (apply x86 x s).state.DotProduct = s.DotProduct ∧
    (apply x86 x s).warnings =
      ["Warning, ignoring unsupported config variable value: dotproduct=" ++
         x ++ "\n",
       supportLine x86] ∧
    (apply x86 x s).state.dotproduct = "generic" ∧
    (apply x86 x s).setValueCalls = ["generic"] := by
  cases x86 <;> simp_all [acceptedValues, apply, SIMDDetect.Update]

/-- C2 witness: on a non-x86 target, `"avx"` is not accepted; applying it
keeps the generic kernel bound, prints both diagnostic lines and stores
`"generic"`. -/
theorem claim_C2_witness :
    (apply false "avx"
        { DotProduct := some Kernel.generic, dotproduct := "auto" }).state.DotProduct =
      some Kernel.generic ∧
    (apply false "avx"
        { DotProduct := some Kernel.generic, dotproduct := "auto" }).warnings =
      ["Warning, ignoring unsupported config variable value: dotproduct=" ++
         "avx" ++ "\n",
       supportLine false] ∧
    (apply false "avx"
        { DotProduct := some Kernel.generic, dotproduct := "auto" }).state.dotproduct =
      "generic" ∧
    (apply false "avx"
        { DotProduct := some Kernel.generic, dotproduct := "auto" }).setValueCalls =
      ["generic"] :=
  claim_C2 false "avx" { DotProduct := some Kernel.generic, dotproduct := "auto" }
    (by decide)

/-- C3: whenever detection leaves `avx_available_` false, the AVX2,
AVX512F and AVX512BW flags are also false — the leaf-7 query that could
set them only runs when AVX was detected, and all flags start false. -/
theorem claim_C3 (c : CpuInfo)
    (h : (SIMDDetect.detect c).avx_available_ = false) :
    (SIMDDetect.detect c).avx2_available_ = false ∧
    (SIMDDetect.detect c).avx512F_available_ = false ∧
    (SIMDDetect.detect c).avx512BW_available_ = false := by
  rcases c with ⟨x86, gnuc, leaf1, leaf7, maxLeaf, leaf1win⟩
  cases x86
  · simp_all [SIMDDetect.detect, Flags.init]
  · cases gnuc
    · by_cases hm : 1 ≤ maxLeaf <;> simp_all [SIMDDetect.detect, Flags.init]
    · cases leaf1 with
      | none => simp_all [SIMDDetect.detect, Flags.init]
      | some r =>
        by_cases hb : r.ecx &&& 0x10000000 = 0 <;>
          simp_all [SIMDDetect.detect, Flags.init]

/-- C3 witness: a CPU whose leaf-1 ecx is zero has no AVX, and indeed none
of the AVX2/AVX512 flags are set, even though its leaf-7 ebx has every bit
set. -/
theorem claim_C3_witness :
    (SIMDDetect.detect
        ⟨true, true, some ⟨0, 0, 0, 0⟩, ⟨0, 0xFFFFFFFF, 0, 0⟩, 0,
          ⟨0, 0, 0, 0⟩⟩).avx2_available_ = false ∧
    (SIMDDetect.detect
        ⟨true, true, some ⟨0, 0, 0, 0⟩, ⟨0, 0xFFFFFFFF, 0, 0⟩, 0,
          ⟨0, 0, 0, 0⟩⟩).avx512F_available_ = false ∧
    (SIMDDetect.detect
        ⟨true, true, some ⟨0, 0, 0, 0⟩, ⟨0, 0xFFFFFFFF, 0, 0⟩, 0,
          ⟨0, 0, 0, 0⟩⟩).avx512BW_available_ = false :=
  claim_C3
    ⟨true, true, some ⟨0, 0, 0, 0⟩, ⟨0, 0xFFFFFFFF, 0, 0⟩, 0, ⟨0, 0, 0, 0⟩⟩
    (by decide)

/-- C4: from the moment the detector's construction completes, and after
any sequence of applied preference strings, the `DotProduct` slot holds a
kernel from the closed set (it is of type `Kernel`): it is never the null
pointer it was zero-initialized to. -/
theorem claim_C4 (c : CpuInfo) (prefs : List String) :
    ((runUpdates c.x86 prefs (initState c)).DotProduct).isSome = true :=
  runUpdates_isSome c.x86 prefs (initState c) (initSlot_isSome c)

/-- C5: the constructor's first `SetDotProduct` call installs the generic
kernel, and the slot it finally leaves bound is determined purely by the
detected flags, preferring AVX over SSE over the generic fallback. -/
theorem claim_C5 (c : CpuInfo) :
    (SIMDDetect.ctorCalls c).head? = some Kernel.generic ∧
    SIMDDetect.initSlot c =
      some (if (SIMDDetect.detect c).avx_available_ then Kernel.avx
            else if (SIMDDetect.detect c).sse_available_ then Kernel.sse
            else Kernel.generic) := by
  constructor
  · simp [SIMDDetect.ctorCalls]
  · unfold SIMDDetect.initSlot SIMDDetect.ctorCalls slotAfter
    cases hx : c.x86
    · simp [SIMDDetect.detect, hx, Flags.init]
    · cases h1 : (SIMDDetect.detect c).avx_available_ <;>
        cases h2 : (SIMDDetect.detect c).sse_available_ <;>
        simp [hx, h1, h2]

/-- C6: after applying `"generic"` the bound kernel is the generic one;
that kernel's loop computes the reference summation Σ_{k < n} u k * v k
for all inputs, and on u = [1,2,3], v = [4,5,6] with n = 3 it returns
exactly 32. -/
theorem claim_C6 (x86 : Bool) (s : State) :
    (apply x86 "generic" s).state.DotProduct = some Kernel.generic ∧
    (∀ u v : Nat → ℚ, ∀ n : Nat,
      DotProductGeneric u v n =
        Finset.sum (Finset.range n) (fun k => u k * v k)) ∧
    DotProductGeneric uEx vEx 3 = 32 := by
  refine ⟨by simp [apply, SIMDDetect.Update], dotProductGeneric_eq_sum, ?_⟩
  simp [DotProductGeneric, List.range_succ, uEx, vEx]
  norm_num

/-- C7: on an x86 build target, applying `"avx"` binds the AVX kernel and
stores `"avx"`, and applying `"sse"` binds the SSE kernel and stores
`"sse"`, from every prior state.  `Update` never consults the capability
flags (they do not even appear in its state), so the override is
unchecked. -/
theorem claim_C7 (s : State) :
    (apply true "avx" s).state.DotProduct = some Kernel.avx ∧
    (apply true "avx" s).state.dotproduct = "avx" ∧
    (apply true "avx" s).setValueCalls = ["avx"] ∧
    (apply true "sse" s).state.DotProduct = some Kernel.sse ∧
    (apply true "sse" s).state.dotproduct = "sse" ∧
    (apply true "sse" s).setValueCalls = ["sse"] := by
  simp [apply, SIMDDetect.Update]

/-- C8: applying `"sse"` is idempotent on the global state — on every
build target and from every starting state, applying it twice leaves the
same bound kernel and the same stored value as applying it once. -/
theorem claim_C8 (x86 : Bool) (s : State) :
    (apply x86 "sse" (apply x86 "sse" s).state).state =
      (apply x86 "sse" s).state := by
  cases x86 <;> simp [apply, SIMDDetect.Update]

/-- C9: each capability flag is true only when positively confirmed by the
corresponding CPUID bit on the path that can set it (leaf-1 ecx bits for
SSE/AVX on either x86 path, leaf-7 ebx bits — reachable only on the GNUC
path with AVX present — for AVX2/AVX512F/AVX512BW); off x86 targets
detection returns all-false flags.  `detect` is a total function: every
outcome is a plain `Flags` value, never a failure. -/
theorem claim_C9 (c : CpuInfo) :
    ((SIMDDetect.detect c).sse_available_ = true →
       c.x86 = true ∧
       ((c.gnuc = true ∧ ∃ r, c.leaf1 = some r ∧ ¬ r.ecx &&& 0x00080000 = 0) ∨
        (c.gnuc = false ∧ 1 ≤ c.maxLeaf ∧ ¬ c.leaf1win.ecx &&& 0x00080000 = 0))) ∧
    ((SIMDDetect.detect c).avx_available_ = true →
       c.x86 = true ∧
       ((c.gnuc = true ∧ ∃ r, c.leaf1 = some r ∧ ¬ r.ecx &&& 0x10000000 = 0) ∨
        (c.gnuc = false ∧ 1 ≤ c.maxLeaf ∧ ¬ c.leaf1win.ecx &&& 0x10000000 = 0))) ∧
    ((SIMDDetect.detect c).avx2_available_ = true →
       c.x86 = true ∧ c.gnuc = true ∧
       (SIMDDetect.detect c).avx_available_ = true ∧
       ¬ c.leaf7.ebx &&& 0x00000020 = 0) ∧
    ((SIMDDetect.detect c).avx512F_available_ = true →
       c.x86 = true ∧ c.gnuc = true ∧
       (SIMDDetect.detect c).avx_available_ = true ∧
       ¬ c.leaf7.ebx &&& 0x00010000 = 0) ∧
    ((SIMDDetect.detect c).avx512BW_available_ = true →
       c.x86 = true ∧ c.gnuc = true ∧
       (SIMDDetect.detect c).avx_available_ = true ∧
       ¬ c.leaf7.ebx &&& 0x40000000 = 0) ∧
    (c.x86 = false → SIMDDetect.detect c = Flags.init) := by
  rcases c with ⟨x86, gnuc, leaf1, leaf7, maxLeaf, leaf1win⟩
  cases x86
  · simp_all [SIMDDetect.detect, Flags.init]
  · cases gnuc
    · by_cases hm : 1 ≤ maxLeaf <;> simp_all [SIMDDetect.detect, Flags.init]
    · cases leaf1 with
      | none => simp_all [SIMDDetect.detect, Flags.init]
      | some r =>
        by_cases hb : r.ecx &&& 0x10000000 = 0 <;>
          simp_all [SIMDDetect.detect, Flags.init]

/-- C10: after every `Update` call, whatever the stored string was before,
the value written back is one of the four concrete method names — never
`"auto"` and never a rejected input — and `Update` performs exactly one
`set_value` call, whose argument is that stored value. -/
theorem claim_C10 (x86 : Bool) (s : State) :
    (SIMDDetect.Update x86 s).state.dotproduct ∈
      ["generic", "native", "avx", "sse"] ∧
    (SIMDDetect.Update x86 s).state.dotproduct ≠ "auto" ∧
    (SIMDDetect.Update x86 s).setValueCalls =
      [(SIMDDetect.Update x86 s).state.dotproduct] := by
  unfold SIMDDetect.Update
  repeat' split
  all_goals simp_all

end Tesseract
